import Mathlib

/-!
Verification development for the Flowise flow-analysis pipeline
(`flowise_mcp/utils.py`): node classification (`categorize_node`),
flow analysis (`analyze_flow_data`), and result rendering
(`format_analysis`).  Python dictionaries with optional fields are
modelled as structures of `Option` fields; Python's `json.loads` is an
external standard-library function and is modelled as an abstract
decoder parameter `jsonLoads : String → Option FlowGraph`; Python's
substring test `kw in s` is modelled by list-infix containment on the
character lists; Python's `str.lower` is modelled by lowering each
character (`pyLower`, the character map that `String.toLower` performs,
written over the character list so it evaluates by kernel reduction).
-/

namespace FlowiseMCP

/-! ## Data model -/

/-- Nested `data` field of a raw flow node: the keys read by the code. -/
structure NodeData where
  type? : Option String := none
  name? : Option String := none
  label? : Option String := none
deriving DecidableEq

/-- Raw node entry of a decoded flow graph. -/
structure RawNode where
  id? : Option String := none
  data? : Option NodeData := none
deriving DecidableEq

/-- Decoded flow graph: `nodes` and `edges` keys, both optional.  Edge
contents are never inspected beyond their count, so edges are `Unit`s. -/
structure FlowGraph where
  nodes? : Option (List RawNode) := none
  edges? : Option (List Unit) := none
deriving DecidableEq

/-- Raw flow record handed to `analyze_flow_data`: the keys the code
reads.  `flowData` is either an encoded string or an already-decoded
graph (`flow.get("flowData", "\x7b\x7d")` then
`json.loads(x) if isinstance(x, str) else x`). -/
structure Flow where
  name? : Option String := none
  type? : Option String := none
  isPublic : Bool := false
  flowData? : Option (String ⊕ FlowGraph) := none

/-- Node record placed in `analysis["nodes"]`. -/
structure ANode where
  id? : Option String
  type : String
  label : String
  category : String
deriving DecidableEq

/-- Suggestion record: `tips` and `nodes_to_add` are optional keys in the
Python dictionaries, modelled as lists defaulting to `[]`. -/
structure Suggestion where
  priority : String
  category : String
  title : String
  description : String
  tips : List String := []
  nodes_to_add : List String := []
deriving DecidableEq

/-- Best-practice record. -/
structure BestPractice where
  category : String
  title : String
  tips : List String
deriving DecidableEq

/-- Analysis record built by `analyze_flow_data`. -/
structure Analysis where
  flow_name : String
  flow_type : String
  summary : String
  nodes : List ANode
  suggestions : List Suggestion
  best_practices : List BestPractice
  potential_issues : List String
deriving DecidableEq

/-! ## Node classifier (`categorize_node`) -/

/-- Python's substring test `sub in s`, as infix containment of character
lists. -/
def containsSub (s sub : String) : Bool :=
  decide (sub.toList <:+: s.toList)

/-- Python's `str.lower`: lower each character, as `String.toLower` does,
written as a map over the character list. -/
def pyLower (s : String) : String :=
  ⟨s.data.map Char.toLower⟩

/-- Ordered rule table of `categorize_node`, verbatim from the source. -/
def categoryRules : List (List String × String) :=
  [ (["llm", "gpt", "claude", "anthropic", "openai", "gemini", "mistral"], "llm"),
    (["memory", "buffer", "window"], "memory"),
    (["vector", "chroma", "pinecone", "faiss", "weaviate", "qdrant", "milvus"], "vector_store"),
    (["retriever", "retrieval"], "retriever"),
    (["loader", "document", "pdf", "csv"], "document_loader"),
    (["embed", "embedding"], "embeddings"),
    (["tool", "serp", "calculator", "request", "browser"], "tool"),
    (["prompt", "template"], "prompt"),
    (["agent", "supervisor", "worker"], "agent"),
    (["chain", "sequential"], "chain"),
    (["splitter", "chunk"], "text_splitter"),
    (["moderation"], "moderation"),
    (["cache"], "cache"),
    (["parser", "output"], "output_parser") ]

/-- Loop body of `categorize_node`: return the category of the first rule
with a matching keyword, else fall through. -/
def firstCategory (node_lower : String) : List (List String × String) → String
  | [] => "other"
  | (keywords, category) :: rest =>
    if keywords.any (fun kw => containsSub node_lower kw) then category
    else firstCategory node_lower rest

/-- Translation of `categorize_node`: lowercase the type string and scan
the ordered rule table. -/
def categorize_node (node_type : String) : String :=
  firstCategory (pyLower node_type) categoryRules

/-! ## Analyzer (`analyze_flow_data`) -/

/-- Decoding step applied to the raw `flowData` value:
`json.loads(x) if isinstance(x, str) else x`, with decode failure
(`json.JSONDecodeError`) surfaced as `none`. -/
def decodeFlowData (jsonLoads : String → Option FlowGraph) :
    String ⊕ FlowGraph → Option FlowGraph
  | Sum.inl s => jsonLoads s
  | Sum.inr g => some g

/-- Node loop of `analyze_flow_data`: extract type and label with the
source's fallback chains and classify the type. -/
def analysisNodes (nodes : List RawNode) : List ANode :=
  nodes.map fun node =>
    let node_data := node.data?.getD {}
    let node_type := node_data.type?.getD (node_data.name?.getD "Unknown")
    let node_label := node_data.label?.getD (node.id?.getD "Unnamed")
    { id? := node.id?, type := node_type, label := node_label,
      category := categorize_node node_type }

/-- Categories found across a decoded flow's nodes (a Python set used only
through membership tests, modelled as the list of category values). -/
def flowCategories (flow_data : FlowGraph) : List String :=
  (analysisNodes (flow_data.nodes?.getD [])).map (·.category)

/-- Memory-rule suggestion. -/
def memorySuggestion : Suggestion :=
  { priority := "high", category := "memory", title := "Add Conversation Memory",
    description := "This flow doesn\x27t have memory nodes. Adding memory enables conversation context across messages.",
    nodes_to_add := ["Buffer Memory", "Zep Memory", "Redis Memory", "MongoDB Memory"] }

/-- Knowledge-goal suggestion, with the conditionally extended candidate
list built exactly as in the source. -/
def vectorStoreSuggestion (categories_found : List String) : Suggestion :=
  { priority := "high", category := "rag", title := "Add Vector Store for Knowledge Base",
    description := "Add a Vector Store (Pinecone, Chroma, or FAISS) with Embeddings and Document Loaders for knowledge retrieval.",
    nodes_to_add :=
      ["Chroma", "Pinecone", "FAISS", "OpenAI Embeddings"] ++
      (if !(categories_found.contains "document_loader") then ["PDF Loader", "Text Loader"] else []) ++
      (if !(categories_found.contains "retriever") then ["Vector Store Retriever"] else []) }

/-- Agent-tools suggestion. -/
def toolsSuggestion : Suggestion :=
  { priority := "medium", category := "tools", title := "Add Tools to Agent",
    description := "This agent flow has no tools. Add tools to extend capabilities (Search, Calculator, API calls).",
    nodes_to_add := ["SerpAPI", "Calculator", "Custom Tool", "Request Tool", "Web Browser"] }

/-- Format-goal suggestion. -/
def outputParserSuggestion : Suggestion :=
  { priority := "medium", category := "output", title := "Add Output Parser",
    description := "Add an Output Parser to structure responses (JSON, CSV, structured data).",
    nodes_to_add := ["Structured Output Parser", "JSON Output Parser", "List Output Parser"] }

/-- Moderation suggestion for public flows. -/
def moderationSuggestion : Suggestion :=
  { priority := "medium", category := "safety", title := "Add Input Moderation",
    description := "This public flow lacks moderation. Add an Input Moderation node to filter inappropriate content.",
    nodes_to_add := ["OpenAI Moderation", "Simple Prompt Moderation"] }

/-- Accuracy-goal suggestion. -/
def accuracySuggestion : Suggestion :=
  { priority := "high", category := "accuracy", title := "Improve Response Accuracy",
    description := "To improve accuracy:",
    tips :=
      ["Use a more capable model (GPT-4o, Claude 3.5 Sonnet)",
       "Add relevant context through RAG",
       "Improve prompts with clearer instructions",
       "Add few-shot examples",
       "Adjust temperature (lower for consistency, higher for creativity)"] }

/-- Speed-goal suggestion. -/
def speedSuggestion : Suggestion :=
  { priority := "high", category := "performance", title := "Improve Response Speed",
    description := "To make responses faster:",
    tips :=
      ["Use a faster model (GPT-4o-mini, Claude 3 Haiku)",
       "Enable streaming for perceived faster responses",
       "Add caching for repeated queries",
       "Reduce context length where possible",
       "Use smaller chunk sizes in RAG"] }

/-- Capability suggestion whose description interpolates the goal text
(`f"Based on your goal '\x7bimprovement_goal\x7d':"`). -/
def capabilitySuggestion (improvement_goal : Option String) : Suggestion :=
  { priority := "medium", category := "capability", title := "Extend Capabilities",
    description :=
      "Based on your goal \x27" ++
      (match improvement_goal with | some g => g | none => "None") ++ "\x27:",
    tips :=
      ["Add specific tools for the functionality needed",
       "Create custom tools using the Custom Tool node",
       "Add relevant document sources via Document Loaders",
       "Consider using Agent flows for complex multi-step tasks",
       "Add conditional routing with Condition nodes"] }

/-- Prompt-engineering best practice. -/
def promptPractice : BestPractice :=
  { category := "prompts", title := "Prompt Engineering Tips",
    tips :=
      ["Use clear, specific instructions in your prompts",
       "Include examples (few-shot learning) for better results",
       "Define the output format explicitly",
       "Use system prompts to set context and behavior"] }

/-- Caching best practice. -/
def cachePractice : BestPractice :=
  { category := "performance", title := "Consider Adding Caching",
    tips :=
      ["Add a Cache node to store repeated LLM responses",
       "Caching reduces costs and latency significantly",
       "Redis Cache or In-Memory Cache are good options"] }

/-- Rule battery of `analyze_flow_data` after a successful decode: each
sequential `if`-append becomes one conditional singleton segment, in the
source's order. -/
def analyzeDecoded (flow : Flow) (improvement_goal : Option String)
    (flow_data : FlowGraph) : Analysis :=
  let flow_type := flow.type?.getD "CHATFLOW"
  let nodes := flow_data.nodes?.getD []
  let edges := flow_data.edges?.getD []
  let aNodes := analysisNodes nodes
  let categories_found := aNodes.map (·.category)
  let is_agent_flow := flow_type == "AGENTFLOW" || flow_type == "MULTIAGENT"
  let goal_lower := pyLower (improvement_goal.getD "")
  { flow_name := flow.name?.getD "Unknown",
    flow_type := flow_type,
    summary := "Flow contains " ++ toString nodes.length ++ " nodes and " ++
      toString edges.length ++ " connections.",
    nodes := aNodes,
    suggestions :=
      (if !(categories_found.contains "memory") then [memorySuggestion] else []) ++
      (if containsSub goal_lower "knowledge" && !(categories_found.contains "vector_store") then
        [vectorStoreSuggestion categories_found] else []) ++
      (if is_agent_flow && !(categories_found.contains "tool") then [toolsSuggestion] else []) ++
      (if containsSub goal_lower "format" && !(categories_found.contains "output_parser") then
        [outputParserSuggestion] else []) ++
      (if flow.isPublic && !(categories_found.contains "moderation") then
        [moderationSuggestion] else []) ++
      (if containsSub goal_lower "accuracy" || containsSub goal_lower "better" then
        [accuracySuggestion] else []) ++
      (if containsSub goal_lower "fast" || containsSub goal_lower "speed" then
        [speedSuggestion] else []) ++
      (if containsSub goal_lower "handle" || containsSub goal_lower "support" then
        [capabilitySuggestion improvement_goal] else []),
    best_practices :=
      (if categories_found.contains "prompt" then [promptPractice] else []) ++
      (if !(categories_found.contains "cache") then [cachePractice] else []),
    potential_issues := [] }

/-- Translation of `analyze_flow_data`: decode `flowData` (defaulting to
the string `"\x7b\x7d"`), return the corruption report on decode failure,
otherwise run the rule battery. -/
def analyze_flow_data (jsonLoads : String → Option FlowGraph) (flow : Flow)
    (improvement_goal : Option String := none) : Analysis :=
  match decodeFlowData jsonLoads (flow.flowData?.getD (Sum.inl "\x7b\x7d")) with
  | none =>
    { flow_name := flow.name?.getD "Unknown",
      flow_type := flow.type?.getD "CHATFLOW",
      summary := "",
      nodes := [],
      suggestions := [],
      best_practices := [],
      potential_issues := ["Could not parse flow data - flow may be corrupted"] }
  | some flow_data => analyzeDecoded flow improvement_goal flow_data

end FlowiseMCP

namespace FlowiseMCP

/-! ## Helper lemmas -/

/-- Membership in a conditional singleton segment of the rule battery. -/
theorem mem_ite_singleton {α : Type} {c : Prop} [Decidable c] {x a : α} :
    (x ∈ if c then [a] else ([] : List α)) ↔ (c ∧ x = a) := by
  by_cases h : c <;> simp [h]

/-! ## C1: the node classifier -/

/-- Specification reading of the classifier: lowercase the input, then
return the category of the first matching rule via `List.find?`,
defaulting to `"other"`. -/
def specFirstMatch (node_type : String) : String :=
  ((categoryRules.find? fun r => r.1.any fun kw => containsSub (pyLower node_type) kw).map
    (·.2)).getD "other"

/-- Scanning the rule list returns the category of the first match. -/
theorem firstCategory_eq_find (s : String) (rules : List (List String × String)) :
    firstCategory s rules =
      ((rules.find? fun r => r.1.any fun kw => containsSub s kw).map (·.2)).getD "other" := by
  induction rules with
  | nil => rfl
  | cons r rest ih =>
    obtain ⟨kws, cat⟩ := r
    by_cases h : (kws.any fun kw => containsSub s kw) = true
    · simp [firstCategory, h, List.find?_cons_of_pos]
    · simp only [Bool.not_eq_true] at h
      simp [firstCategory, h, List.find?_cons_of_neg, ih]

/-- C1 (amended): `categorize_node` lowercases its input and returns the
category of the first rule of the fixed ordered table having a keyword
that occurs as a substring, `"other"` when no rule matches; any string
whose lowercasing contains `"gpt"` classifies as `"llm"`; and a string
containing both an agent keyword and an output/parser keyword classifies
as `"agent"` provided no keyword of the eight earlier rules occurs in it. -/
theorem categorize_node_first_match_spec :
    (∀ s : String, categorize_node s = specFirstMatch s) ∧
    (∀ s : String, containsSub (pyLower s) "gpt" = true → categorize_node s = "llm") ∧
    (∀ s : String,
      ((categoryRules.take 8).all fun r => !(r.1.any fun kw => containsSub (pyLower s) kw)) = true →
      (["agent", "supervisor", "worker"].any fun kw => containsSub (pyLower s) kw) = true →
      (["parser", "output"].any fun kw => containsSub (pyLower s) kw) = true →
      categorize_node s = "agent") := by
  refine ⟨fun s => firstCategory_eq_find _ _, fun s h => ?_, fun s h8 h9 hout => ?_⟩
  · have hany : (["llm", "gpt", "claude", "anthropic", "openai", "gemini", "mistral"].any
        fun kw => containsSub (pyLower s) kw) = true := by simp [h]
    simp [categorize_node, categoryRules, firstCategory, hany]
  · simp only [categoryRules, List.take, List.all_cons, List.all_nil, Bool.and_eq_true,
      Bool.not_eq_true'] at h8
    obtain ⟨h1, h2, h3, h4, h5, h6, h7, h8', -⟩ := h8
    simp [categorize_node, categoryRules, firstCategory, h1, h2, h3, h4, h5, h6, h7, h8', h9]

/-- Witness for `categorize_node_first_match_spec` at concrete inputs. -/
theorem categorize_node_first_match_spec_witness :
    categorize_node "MyGPTNode" = "llm" ∧ categorize_node "AgentOutput" = "agent" :=
  ⟨categorize_node_first_match_spec.2.1 "MyGPTNode" (by decide),
   categorize_node_first_match_spec.2.2 "AgentOutput" (by decide) (by decide) (by decide)⟩

/-- C1 counterexample: `"GPT Agent Output"` contains both an agent keyword
and an output keyword, yet `categorize_node` classifies it as `"llm"`
(rule 1 fires first), not `"agent"` as the claim states. -/
theorem categorize_node_agent_output_cex :
    containsSub (pyLower "GPT Agent Output") "agent" = true ∧
    containsSub (pyLower "GPT Agent Output") "output" = true ∧
    categorize_node "GPT Agent Output" = "llm" ∧ ("llm" : String) ≠ "agent" := by
  decide


/-! ## C2 and C3: memory suggestion and corruption handling -/

/-- Unfolding of `analyze_flow_data` on a successful decode. -/
theorem analyze_flow_data_decoded (jsonLoads : String → Option FlowGraph)
    (flow : Flow) (goal : Option String) (g : FlowGraph)
    (h : decodeFlowData jsonLoads (flow.flowData?.getD (Sum.inl "\x7b\x7d")) = some g) :
    analyze_flow_data jsonLoads flow goal = analyzeDecoded flow goal g := by
  simp [analyze_flow_data, h]

/-- C2: for a successfully decoded flow, the high-priority memory
suggestion is present if and only if no node of the flow classifies into
category `memory`. -/
theorem analyze_memory_suggestion_iff (jsonLoads : String → Option FlowGraph)
    (flow : Flow) (goal : Option String) (g : FlowGraph)
    (h : decodeFlowData jsonLoads (flow.flowData?.getD (Sum.inl "\x7b\x7d")) = some g) :
    memorySuggestion ∈ (analyze_flow_data jsonLoads flow goal).suggestions ↔
      ∀ n ∈ (analyze_flow_data jsonLoads flow goal).nodes, n.category ≠ "memory" := by
  rw [analyze_flow_data_decoded jsonLoads flow goal g h]
  simp only [analyzeDecoded, List.mem_append, mem_ite_singleton]
  simp [memorySuggestion, vectorStoreSuggestion, toolsSuggestion, outputParserSuggestion,
    moderationSuggestion, accuracySuggestion, speedSuggestion, capabilitySuggestion,
    List.mem_map, not_exists]

/-- Example graph used by concrete witnesses: one `ChatOpenAI` node. -/
def exGraphLLM : FlowGraph :=
  { nodes? := some [{ id? := some "1", data? := some { type? := some "ChatOpenAI" } }] }

/-- Example flow wrapping `exGraphLLM`, already decoded. -/
def exFlowLLM : Flow := { flowData? := some (Sum.inr exGraphLLM) }

/-- Witness for `analyze_memory_suggestion_iff`: a decoded one-node flow. -/
theorem analyze_memory_suggestion_iff_witness :
    memorySuggestion ∈ (analyze_flow_data (fun _ => none) exFlowLLM none).suggestions ↔
      ∀ n ∈ (analyze_flow_data (fun _ => none) exFlowLLM none).nodes, n.category ≠ "memory" :=
  analyze_memory_suggestion_iff (fun _ => none) exFlowLLM none _ rfl

/-- C3: `potential_issues` is non-empty exactly when the flow data failed
to decode, and on decode failure the analysis is exactly the corruption
report: the single issue string, zero nodes, zero suggestions, zero
best-practice entries. -/
theorem analyze_corrupted_iff (jsonLoads : String → Option FlowGraph)
    (flow : Flow) (goal : Option String) :
    ((analyze_flow_data jsonLoads flow goal).potential_issues ≠ [] ↔
      decodeFlowData jsonLoads (flow.flowData?.getD (Sum.inl "\x7b\x7d")) = none) ∧
    (decodeFlowData jsonLoads (flow.flowData?.getD (Sum.inl "\x7b\x7d")) = none →
      (analyze_flow_data jsonLoads flow goal).potential_issues =
          ["Could not parse flow data - flow may be corrupted"] ∧
        (analyze_flow_data jsonLoads flow goal).nodes = [] ∧
        (analyze_flow_data jsonLoads flow goal).suggestions = [] ∧
        (analyze_flow_data jsonLoads flow goal).best_practices = []) := by
  cases hd : decodeFlowData jsonLoads (flow.flowData?.getD (Sum.inl "\x7b\x7d")) with
  | none => simp [analyze_flow_data, hd]
  | some g => simp [analyze_flow_data, hd, analyzeDecoded]

/-- Witness for `analyze_corrupted_iff`: the corrupted string
`"not valid \x7b"` under a decoder that rejects it. -/
theorem analyze_corrupted_iff_witness :
    (analyze_flow_data (fun _ => none)
          { flowData? := some (Sum.inl "not valid \x7b") } none).potential_issues =
        ["Could not parse flow data - flow may be corrupted"] ∧
      (analyze_flow_data (fun _ => none)
          { flowData? := some (Sum.inl "not valid \x7b") } none).nodes = [] ∧
      (analyze_flow_data (fun _ => none)
          { flowData? := some (Sum.inl "not valid \x7b") } none).suggestions = [] ∧
      (analyze_flow_data (fun _ => none)
          { flowData? := some (Sum.inl "not valid \x7b") } none).best_practices = [] :=
  (analyze_corrupted_iff (fun _ => none) _ none).2 rfl


/-! ## C4: suggestion ordering in text rendering -/

/-- Stable insertion of `x` into a sorted list of elements that all came
after `x` in the original order: `x` goes before the first element of
greater-or-equal key. -/
def insertByKey {α : Type} (key : α → Nat) (x : α) : List α → List α
  | [] => [x]
  | y :: ys => if key x ≤ key y then x :: y :: ys else y :: insertByKey key x ys

/-- Stable sort by an integer key, modelling Python's stable `sorted`. -/
def pySorted {α : Type} (key : α → Nat) : List α → List α
  | [] => []
  | x :: xs => insertByKey key x (pySorted key xs)

/-- Sort key of `format_analysis` in markdown mode:
`0 if x["priority"] == "high" else 1`. -/
def suggestionKey (x : Suggestion) : Nat :=
  if x.priority == "high" then 0 else 1

/-- Order in which `format_analysis` (markdown mode) lists the
improvement suggestions:
`sorted(analysis["suggestions"], key=lambda x: 0 if x["priority"] == "high" else 1)`. -/
def renderedSuggestions (analysis : Analysis) : List Suggestion :=
  pySorted suggestionKey analysis.suggestions

/-- Inserting an element whose key is minimal places it in front. -/
theorem insertByKey_front {α : Type} (key : α → Nat) (x : α) (l : List α)
    (h : ∀ y ∈ l, key x ≤ key y) : insertByKey key x l = x :: l := by
  cases l with
  | nil => rfl
  | cons y ys => simp [insertByKey, h y (by simp)]

/-- Inserting an element after a block of strictly smaller keys and before
a block of greater-or-equal keys. -/
theorem insertByKey_middle {α : Type} (key : α → Nat) (x : α) (A B : List α)
    (hA : ∀ a ∈ A, key a < key x) (hB : ∀ b ∈ B, key x ≤ key b) :
    insertByKey key x (A ++ B) = A ++ x :: B := by
  induction A with
  | nil =>
    cases B with
    | nil => rfl
    | cons b B' => simp [insertByKey, hB b (by simp)]
  | cons a A' ih =>
    have ha : ¬ key x ≤ key a := Nat.not_le.mpr (hA a (by simp))
    have ih' := ih fun a' ha' => hA a' (by simp [ha'])
    simp [insertByKey, ha, ih']

/-- Stable sorting by the two-valued priority key is the stable partition:
high-priority elements first, then the rest, each block in original order. -/
theorem pySorted_suggestionKey (l : List Suggestion) :
    pySorted suggestionKey l =
      l.filter (fun s => s.priority == "high") ++
        l.filter (fun s => !(s.priority == "high")) := by
  induction l with
  | nil => rfl
  | cons x xs ih =>
    simp only [pySorted, ih]
    by_cases hx : x.priority == "high"
    · rw [insertByKey_front]
      · simp [List.filter_cons, hx]
      · intro y hy
        simp [suggestionKey, hx]
    · rw [insertByKey_middle]
      · simp [List.filter_cons, hx]
      · intro a ha
        have := (List.mem_filter.mp ha).2
        simp [suggestionKey, hx, this]
      · intro b hb
        have := (List.mem_filter.mp hb).2
        simp only [Bool.not_eq_true'] at this
        simp [suggestionKey, hx, this]

/-- C4: markdown-mode rendering lists suggestions in stable-sorted
priority order: all suggestions of priority `high` first, then all
remaining ones, each block keeping the accumulation order of the rule
battery. -/
theorem renderedSuggestions_stable_partition (a : Analysis) :
    renderedSuggestions a =
      a.suggestions.filter (fun s => s.priority == "high") ++
        a.suggestions.filter (fun s => !(s.priority == "high")) :=
  pySorted_suggestionKey a.suggestions


/-! ## C5: node type and label extraction -/

/-- Label extraction as claimed: nested `label`, else nested `name`, else
the node's own id, else `"Unnamed"`. -/
def claimNodeLabel (node : RawNode) : String :=
  match node.data? with
  | some d =>
    match d.label? with
    | some l => l
    | none =>
      match d.name? with
      | some nm => nm
      | none => match node.id? with | some i => i | none => "Unnamed"
  | none => match node.id? with | some i => i | none => "Unnamed"

/-- Type extraction as claimed (and as coded): nested `type`, else nested
`name`, else `"Unknown"`. -/
def claimNodeType (node : RawNode) : String :=
  match node.data? with
  | some d =>
    match d.type? with
    | some t => t
    | none => match d.name? with | some nm => nm | none => "Unknown"
  | none => "Unknown"

/-- Label extraction as coded: nested `label`, else the node's own id,
else `"Unnamed"` — the nested `name` is never consulted. -/
def codedNodeLabel (node : RawNode) : String :=
  match node.data? with
  | some d =>
    match d.label? with
    | some l => l
    | none => match node.id? with | some i => i | none => "Unnamed"
  | none => match node.id? with | some i => i | none => "Unnamed"

/-- Example node with a nested `name` but no `label`, and an id. -/
def exNodeNameOnly : RawNode := { id? := some "n1", data? := some { name? := some "Foo" } }

/-- Example flow wrapping `exNodeNameOnly`, already decoded. -/
def exFlowNameOnly : Flow :=
  { flowData? := some (Sum.inr { nodes? := some [exNodeNameOnly] }) }

/-- C5 (amended): for every decoded flow, each analysis node carries the
node's own id; its type is the nested data `type`, else the nested
`name`, else `"Unknown"`; its label is the nested `label`, else the
node's own id, else `"Unnamed"` (the nested `name` is not consulted for
the label); and its category classifies the extracted type. -/
theorem analyze_node_extraction (jsonLoads : String → Option FlowGraph)
    (flow : Flow) (goal : Option String) (g : FlowGraph)
    (h : decodeFlowData jsonLoads (flow.flowData?.getD (Sum.inl "\x7b\x7d")) = some g) :
    (analyze_flow_data jsonLoads flow goal).nodes =
      (g.nodes?.getD []).map fun node =>
        { id? := node.id?, type := claimNodeType node, label := codedNodeLabel node,
          category := categorize_node (claimNodeType node) } := by
  rw [analyze_flow_data_decoded jsonLoads flow goal g h]
  show analysisNodes (g.nodes?.getD []) = _
  unfold analysisNodes
  apply List.map_congr_left
  intro node _
  rcases node with ⟨i, d⟩
  cases d with
  | none => cases i <;> rfl
  | some nd =>
    rcases nd with ⟨t, nm, lb⟩
    cases t <;> cases nm <;> cases lb <;> cases i <;> rfl

/-- Witness for `analyze_node_extraction` on a concrete decoded flow. -/
theorem analyze_node_extraction_witness :
    (analyze_flow_data (fun _ => none) exFlowNameOnly none).nodes =
      [exNodeNameOnly].map fun node =>
        { id? := node.id?, type := claimNodeType node, label := codedNodeLabel node,
          category := categorize_node (claimNodeType node) } :=
  analyze_node_extraction (fun _ => none) exFlowNameOnly none _ rfl

/-- C5 counterexample: a node with a nested `name` but no nested `label`
takes its label from the node's own id (`"n1"`), not from the nested
`name` (`"Foo"`) as the claim states. -/
theorem analyze_label_ignores_name_cex :
    ((analyze_flow_data (fun _ => none) exFlowNameOnly none).nodes.map fun n => n.label) =
        ["n1"] ∧
      claimNodeLabel exNodeNameOnly = "Foo" ∧ ("n1" : String) ≠ "Foo" := by
  decide


/-! ## C6: goal-gated accuracy and speed rules -/

/-- C6: for every decoded flow, a goal whose lowercasing contains
`"accuracy"` or `"better"` yields the high-priority accuracy suggestion
and one containing `"fast"` or `"speed"` yields the high-priority speed
suggestion; under the goal `"I want better accuracy and faster
responses"` both appear, in accumulation order with accuracy first; and
with no goal no goal-gated rule fires, so every suggestion is one of the
three goal-independent ones. -/
theorem analyze_goal_gated_rules (jsonLoads : String → Option FlowGraph)
    (flow : Flow) (goal : String) (g : FlowGraph) :
    (decodeFlowData jsonLoads (flow.flowData?.getD (Sum.inl "\x7b\x7d")) = some g →
      (containsSub (pyLower goal) "accuracy" || containsSub (pyLower goal) "better") = true →
      accuracySuggestion ∈ (analyze_flow_data jsonLoads flow (some goal)).suggestions) ∧
    (decodeFlowData jsonLoads (flow.flowData?.getD (Sum.inl "\x7b\x7d")) = some g →
      (containsSub (pyLower goal) "fast" || containsSub (pyLower goal) "speed") = true →
      speedSuggestion ∈ (analyze_flow_data jsonLoads flow (some goal)).suggestions) ∧
    (decodeFlowData jsonLoads (flow.flowData?.getD (Sum.inl "\x7b\x7d")) = some g →
      List.Sublist [accuracySuggestion, speedSuggestion]
        (analyze_flow_data jsonLoads flow
          (some "I want better accuracy and faster responses")).suggestions) ∧
    (∀ s ∈ (analyze_flow_data jsonLoads flow none).suggestions,
      s.title = "Add Conversation Memory" ∨ s.title = "Add Tools to Agent" ∨
        s.title = "Add Input Moderation") := by
  refine ⟨fun h hacc => ?_, fun h hsp => ?_, fun h => ?_, fun s hs => ?_⟩
  · rw [analyze_flow_data_decoded jsonLoads flow _ g h]
    simp only [analyzeDecoded, List.mem_append, mem_ite_singleton]
    simp [memorySuggestion, vectorStoreSuggestion, toolsSuggestion, outputParserSuggestion,
      moderationSuggestion, accuracySuggestion, speedSuggestion, capabilitySuggestion, hacc]
  · rw [analyze_flow_data_decoded jsonLoads flow _ g h]
    simp only [analyzeDecoded, List.mem_append, mem_ite_singleton]
    simp [memorySuggestion, vectorStoreSuggestion, toolsSuggestion, outputParserSuggestion,
      moderationSuggestion, accuracySuggestion, speedSuggestion, capabilitySuggestion, hsp]
  · rw [analyze_flow_data_decoded jsonLoads flow _ g h]
    have hk : containsSub (pyLower "I want better accuracy and faster responses")
        "knowledge" = false := by decide
    have hf : containsSub (pyLower "I want better accuracy and faster responses")
        "format" = false := by decide
    have ha : containsSub (pyLower "I want better accuracy and faster responses")
        "accuracy" = true := by decide
    have hfa : containsSub (pyLower "I want better accuracy and faster responses")
        "fast" = true := by decide
    have hh : containsSub (pyLower "I want better accuracy and faster responses")
        "handle" = false := by decide
    have hsu : containsSub (pyLower "I want better accuracy and faster responses")
        "support" = false := by decide
    simp only [analyzeDecoded, Option.getD_some, hk, hf, ha, hfa, hh, hsu, Bool.false_and,
      Bool.true_or, Bool.or_self, Bool.false_eq_true, if_true, if_false, ite_false,
      List.append_nil, List.nil_append, List.singleton_append, List.cons_append,
      List.append_assoc]
    refine List.Sublist.trans ?_ (List.sublist_append_right _ _)
    refine List.Sublist.trans ?_ (List.sublist_append_right _ _)
    refine List.Sublist.trans ?_ (List.sublist_append_right _ _)
    exact List.Sublist.refl _
  · rcases hd : decodeFlowData jsonLoads (flow.flowData?.getD (Sum.inl "\x7b\x7d")) with
      _ | g'
    · rw [analyze_flow_data] at hs
      rw [hd] at hs
      simp at hs
    · rw [analyze_flow_data_decoded jsonLoads flow none g' hd] at hs
      have h1 : containsSub (pyLower "") "knowledge" = false := by decide
      have h2 : containsSub (pyLower "") "format" = false := by decide
      have h3 : containsSub (pyLower "") "accuracy" = false := by decide
      have h4 : containsSub (pyLower "") "better" = false := by decide
      have h5 : containsSub (pyLower "") "fast" = false := by decide
      have h6 : containsSub (pyLower "") "speed" = false := by decide
      have h7 : containsSub (pyLower "") "handle" = false := by decide
      have h8 : containsSub (pyLower "") "support" = false := by decide
      simp only [analyzeDecoded, Option.getD_none, List.mem_append, mem_ite_singleton,
        h1, h2, h3, h4, h5, h6, h7, h8, Bool.false_and, Bool.or_self, Bool.false_eq_true,
        false_and, and_false, false_or, or_false] at hs
      rcases hs with (⟨-, rfl⟩ | ⟨-, rfl⟩) | ⟨-, rfl⟩
      · exact Or.inl rfl
      · exact Or.inr (Or.inl rfl)
      · exact Or.inr (Or.inr rfl)


/-- Witness for `analyze_goal_gated_rules` on a concrete decoded flow and
concrete goals. -/
theorem analyze_goal_gated_rules_witness :
    accuracySuggestion ∈
        (analyze_flow_data (fun _ => none) exFlowLLM (some "better answers")).suggestions ∧
      speedSuggestion ∈
        (analyze_flow_data (fun _ => none) exFlowLLM (some "more speed")).suggestions ∧
      List.Sublist [accuracySuggestion, speedSuggestion]
        (analyze_flow_data (fun _ => none) exFlowLLM
          (some "I want better accuracy and faster responses")).suggestions :=
  ⟨(analyze_goal_gated_rules (fun _ => none) exFlowLLM "better answers" exGraphLLM).1 rfl
      (by decide),
    (analyze_goal_gated_rules (fun _ => none) exFlowLLM "more speed" exGraphLLM).2.1 rfl
      (by decide),
    (analyze_goal_gated_rules (fun _ => none) exFlowLLM "unused" exGraphLLM).2.2.1 rfl⟩

/-! ## C7: the knowledge-goal vector-store rule -/

/-- C7: for a decoded flow whose goal contains `"knowledge"` and whose
categories lack `vector_store`, exactly one suggestion titled
`"Add Vector Store for Knowledge Base"` is produced; it has high priority
and its `nodes_to_add` starts from the vector-store candidates, extended
with the document-loader candidates exactly when `document_loader` is
absent and with the retriever candidate exactly when `retriever` is
absent. -/
theorem analyze_knowledge_rule (jsonLoads : String → Option FlowGraph)
    (flow : Flow) (goal : String) (g : FlowGraph)
    (h : decodeFlowData jsonLoads (flow.flowData?.getD (Sum.inl "\x7b\x7d")) = some g)
    (hk : containsSub (pyLower goal) "knowledge" = true)
    (hv : (flowCategories g).contains "vector_store" = false) :
    (analyze_flow_data jsonLoads flow (some goal)).suggestions.filter
        (fun s => s.title == "Add Vector Store for Knowledge Base") =
      [{ priority := "high", category := "rag",
         title := "Add Vector Store for Knowledge Base",
         description := "Add a Vector Store (Pinecone, Chroma, or FAISS) with Embeddings and Document Loaders for knowledge retrieval.",
         nodes_to_add :=
           ["Chroma", "Pinecone", "FAISS", "OpenAI Embeddings"] ++
             (if (flowCategories g).contains "document_loader" = false then
               ["PDF Loader", "Text Loader"] else []) ++
             (if (flowCategories g).contains "retriever" = false then
               ["Vector Store Retriever"] else []) }] := by
  rw [analyze_flow_data_decoded jsonLoads flow _ g h]
  have hv' : ∀ x ∈ analysisNodes (g.nodes?.getD []), ¬ x.category = "vector_store" := by
    have hc := hv
    simp only [flowCategories] at hc
    simpa using hc
  simp only [analyzeDecoded, Option.getD_some, List.filter_append]
  simp [apply_ite
      (List.filter fun s : Suggestion => s.title == "Add Vector Store for Knowledge Base"),
    hk, hv', memorySuggestion, vectorStoreSuggestion, toolsSuggestion, outputParserSuggestion,
    moderationSuggestion, accuracySuggestion, speedSuggestion, capabilitySuggestion,
    List.filter_cons, flowCategories]
  exact hv'


/-- Witness for `analyze_knowledge_rule` on a concrete decoded flow and
goal. -/
theorem analyze_knowledge_rule_witness :
    (analyze_flow_data (fun _ => none) exFlowLLM (some "knowledge base")).suggestions.filter
        (fun s => s.title == "Add Vector Store for Knowledge Base") =
      [{ priority := "high", category := "rag",
         title := "Add Vector Store for Knowledge Base",
         description := "Add a Vector Store (Pinecone, Chroma, or FAISS) with Embeddings and Document Loaders for knowledge retrieval.",
         nodes_to_add :=
           ["Chroma", "Pinecone", "FAISS", "OpenAI Embeddings"] ++
             (if (flowCategories exGraphLLM).contains "document_loader" = false then
               ["PDF Loader", "Text Loader"] else []) ++
             (if (flowCategories exGraphLLM).contains "retriever" = false then
               ["Vector Store Retriever"] else []) }] :=
  analyze_knowledge_rule (fun _ => none) exFlowLLM "knowledge base" exGraphLLM rfl
    (by decide) (by decide)

/-! ## C10: supplying a goal is monotone -/

/-- C10: for every flow, the suggestion list produced without a goal is a
sublist (same records, same order) of the list produced with any goal,
and the nodes, summary, best practices and potential issues of the
analysis are unchanged by the goal. -/
theorem analyze_goal_monotone (jsonLoads : String → Option FlowGraph)
    (flow : Flow) (goal : String) :
    List.Sublist (analyze_flow_data jsonLoads flow none).suggestions
        (analyze_flow_data jsonLoads flow (some goal)).suggestions ∧
      (analyze_flow_data jsonLoads flow none).nodes =
        (analyze_flow_data jsonLoads flow (some goal)).nodes ∧
      (analyze_flow_data jsonLoads flow none).summary =
        (analyze_flow_data jsonLoads flow (some goal)).summary ∧
      (analyze_flow_data jsonLoads flow none).best_practices =
        (analyze_flow_data jsonLoads flow (some goal)).best_practices ∧
      (analyze_flow_data jsonLoads flow none).potential_issues =
        (analyze_flow_data jsonLoads flow (some goal)).potential_issues := by
  cases hd : decodeFlowData jsonLoads (flow.flowData?.getD (Sum.inl "\x7b\x7d")) with
  | none => simp [analyze_flow_data, hd]
  | some g =>
    rw [analyze_flow_data_decoded jsonLoads flow none g hd,
      analyze_flow_data_decoded jsonLoads flow (some goal) g hd]
    refine ⟨?_, rfl, rfl, rfl, rfl⟩
    have h1 : containsSub (pyLower "") "knowledge" = false := by decide
    have h2 : containsSub (pyLower "") "format" = false := by decide
    have h3 : containsSub (pyLower "") "accuracy" = false := by decide
    have h4 : containsSub (pyLower "") "better" = false := by decide
    have h5 : containsSub (pyLower "") "fast" = false := by decide
    have h6 : containsSub (pyLower "") "speed" = false := by decide
    have h7 : containsSub (pyLower "") "handle" = false := by decide
    have h8 : containsSub (pyLower "") "support" = false := by decide
    simp only [analyzeDecoded, Option.getD_some, Option.getD_none, h1, h2, h3, h4, h5, h6,
      h7, h8, Bool.false_and, Bool.or_self, Bool.false_eq_true, if_false, ite_false,
      List.append_nil, List.nil_append, List.append_assoc]
    refine List.Sublist.append (List.Sublist.refl _) ?_
    refine List.Sublist.trans ?_ (List.sublist_append_right _ _)
    refine List.Sublist.append (List.Sublist.refl _) ?_
    refine List.Sublist.trans ?_ (List.sublist_append_right _ _)
    exact List.sublist_append_left _ _


/-! ## C8: structured-mode rendering -/

/-- JSON value tree: the shape of the dictionary handed to
`json.dumps(analysis, indent=2)` by `format_analysis` in JSON mode. -/
inductive Json where
  | null
  | str (s : String)
  | arr (elems : List Json)
  | obj (fields : List (String × Json))

/-- String payload of a JSON value, if it is one. -/
def Json.asStr : Json → Option String
  | .str s => some s
  | _ => none

/-- JSON form of an analysis node, with the possibly-`None` id as
`null`. -/
def aNodeToJson (n : ANode) : Json :=
  .obj [("id", match n.id? with | some i => .str i | none => .null),
        ("type", .str n.type), ("label", .str n.label), ("category", .str n.category)]

/-- JSON form of a suggestion: the `tips` and `nodes_to_add` keys are
present exactly when the corresponding lists are non-empty, matching the
dictionaries the rule battery builds. -/
def suggestionToJson (s : Suggestion) : Json :=
  .obj ([("priority", .str s.priority), ("category", .str s.category),
         ("title", .str s.title), ("description", .str s.description)] ++
    (if s.tips.isEmpty then [] else [("tips", .arr (s.tips.map .str))]) ++
    (if s.nodes_to_add.isEmpty then [] else [("nodes_to_add", .arr (s.nodes_to_add.map .str))]))

/-- JSON form of a best-practice note. -/
def bestPracticeToJson (b : BestPractice) : Json :=
  .obj [("category", .str b.category), ("title", .str b.title),
        ("tips", .arr (b.tips.map .str))]

/-- JSON form of the whole analysis record: the serialization performed by
`format_analysis` in JSON mode, at the level of the value tree printed by
`json.dumps`. -/
def analysisToJson (a : Analysis) : Json :=
  .obj [("flow_name", .str a.flow_name), ("flow_type", .str a.flow_type),
        ("summary", .str a.summary),
        ("nodes", .arr (a.nodes.map aNodeToJson)),
        ("suggestions", .arr (a.suggestions.map suggestionToJson)),
        ("best_practices", .arr (a.best_practices.map bestPracticeToJson)),
        ("potential_issues", .arr (a.potential_issues.map .str))]

/-- Modelled from the spec: decoder of a string array, for the round-trip
contract of `structured` mode. -/
def strListFromJson : Json → Option (List String)
  | .arr xs => xs.mapM Json.asStr
  | _ => none

/-- Modelled from the spec: decoder of an analysis node, for the
round-trip contract of `structured` mode. -/
def aNodeFromJson : Json → Option ANode
  | .obj fields =>
    match fields.lookup "id", fields.lookup "type", fields.lookup "label",
        fields.lookup "category" with
    | some idJ, some (.str t), some (.str l), some (.str c) =>
      match idJ with
      | .null => some { id? := none, type := t, label := l, category := c }
      | .str i => some { id? := some i, type := t, label := l, category := c }
      | _ => none
    | _, _, _, _ => none
  | _ => none

/-- Modelled from the spec: decoder of a suggestion, reading an absent
`tips` or `nodes_to_add` key as the empty list. -/
def suggestionFromJson : Json → Option Suggestion
  | .obj fields =>
    match fields.lookup "priority", fields.lookup "category", fields.lookup "title",
        fields.lookup "description" with
    | some (.str p), some (.str c), some (.str t), some (.str d) =>
      match (match fields.lookup "tips" with
             | none => some []
             | some j => strListFromJson j),
          (match fields.lookup "nodes_to_add" with
           | none => some []
           | some j => strListFromJson j) with
      | some tips, some nta =>
        some { priority := p, category := c, title := t, description := d,
               tips := tips, nodes_to_add := nta }
      | _, _ => none
    | _, _, _, _ => none
  | _ => none

/-- Modelled from the spec: decoder of a best-practice note. -/
def bestPracticeFromJson : Json → Option BestPractice
  | .obj fields =>
    match fields.lookup "category", fields.lookup "title", fields.lookup "tips" with
    | some (.str c), some (.str t), some tipsJ =>
      match strListFromJson tipsJ with
      | some tips => some { category := c, title := t, tips := tips }
      | none => none
    | _, _, _ => none
  | _ => none

/-- Modelled from the spec: decoder of a whole analysis record, for the
round-trip contract of `structured` mode. -/
def analysisFromJson : Json → Option Analysis
  | .obj fields =>
    match fields.lookup "flow_name", fields.lookup "flow_type", fields.lookup "summary",
        fields.lookup "nodes", fields.lookup "suggestions", fields.lookup "best_practices",
        fields.lookup "potential_issues" with
    | some (.str fn), some (.str ft), some (.str sm), some (.arr ns), some (.arr sg),
        some (.arr bp), some (.arr pis) =>
      match ns.mapM aNodeFromJson, sg.mapM suggestionFromJson, bp.mapM bestPracticeFromJson,
          pis.mapM Json.asStr with
      | some nodes, some suggestions, some best_practices, some potential_issues =>
        some { flow_name := fn, flow_type := ft, summary := sm, nodes := nodes,
               suggestions := suggestions, best_practices := best_practices,
               potential_issues := potential_issues }
      | _, _, _, _ => none
    | _, _, _, _, _, _, _ => none
  | _ => none

/-- Mapping a faithful decoder over a serialized list recovers the list
(loop form of `List.mapM` in the `Option` monad). -/
theorem mapM_loop_roundtrip {α : Type} (enc : α → Json) (dec : Json → Option α)
    (l : List α) (acc : List α) (h : ∀ x ∈ l, dec (enc x) = some x) :
    List.mapM.loop dec (l.map enc) acc = some (acc.reverse ++ l) := by
  induction l generalizing acc with
  | nil => simp [List.mapM.loop]
  | cons x xs ih =>
    simp [List.mapM.loop, h x (by simp), ih _ fun y hy => h y (by simp [hy])]

/-- String lists round-trip through their JSON form. -/
theorem strList_loop (l : List String) (acc : List String) :
    List.mapM.loop Json.asStr (l.map Json.str) acc = some (acc.reverse ++ l) :=
  mapM_loop_roundtrip Json.str Json.asStr l acc fun _ _ => rfl

/-- Cons form of `strList_loop`, matching a partially unfolded map. -/
theorem strList_loop_cons (x : String) (l : List String) (acc : List String) :
    List.mapM.loop Json.asStr (Json.str x :: l.map Json.str) acc =
      some (acc.reverse ++ x :: l) := by
  simpa using strList_loop (x :: l) acc

/-- Analysis nodes round-trip through their JSON form. -/
theorem aNodeFromJson_toJson (n : ANode) : aNodeFromJson (aNodeToJson n) = some n := by
  rcases n with ⟨i, t, l, c⟩
  cases i <;> rfl

/-- Suggestions round-trip through their JSON form. -/
theorem suggestionFromJson_toJson (s : Suggestion) :
    suggestionFromJson (suggestionToJson s) = some s := by
  rcases s with ⟨p, c, t, d, tips, nta⟩
  cases tips <;> cases nta <;>
    simp [suggestionToJson, suggestionFromJson, List.lookup, strListFromJson,
      List.mapM, strList_loop, strList_loop_cons]

/-- Best-practice notes round-trip through their JSON form. -/
theorem bestPracticeFromJson_toJson (b : BestPractice) :
    bestPracticeFromJson (bestPracticeToJson b) = some b := by
  rcases b with ⟨c, t, tips⟩
  simp [bestPracticeToJson, bestPracticeFromJson, List.lookup, strListFromJson,
    List.mapM, strList_loop, strList_loop_cons]

/-- C8: structured-mode rendering is a pure function of the analysis
record — rendering the same record twice yields the same JSON value — and
it is lossless: decoding the rendered value returns the record. -/
theorem analysisToJson_lossless (a : Analysis) :
    analysisFromJson (analysisToJson a) = some a := by
  rcases a with ⟨fn, ft, sm, ns, sg, bp, pis⟩
  have hns := mapM_loop_roundtrip aNodeToJson aNodeFromJson ns []
    fun x _ => aNodeFromJson_toJson x
  have hsg := mapM_loop_roundtrip suggestionToJson suggestionFromJson sg []
    fun x _ => suggestionFromJson_toJson x
  have hbp := mapM_loop_roundtrip bestPracticeToJson bestPracticeFromJson bp []
    fun x _ => bestPracticeFromJson_toJson x
  have hpi := strList_loop pis []
  simp [analysisToJson, analysisFromJson, List.lookup, List.mapM, hns, hsg, hbp, hpi]

end FlowiseMCP
